import Mathlib

/-!
Shallow embedding of `src/supervisor/homeassistant/ws.py`: the Home Assistant
websocket connection manager (`HomeAssistantWS`) and protocol client
(`WSClient`).

Network effects are modelled by passing the messages the peer would deliver
as explicit inputs (`ConnectEnv` for the handshake, a `response` object for a
command exchange); JSON payloads are modelled by `JValue`.  Raising an
exception is modelled by `Except Exc`; the exception classes that appear in
the source are listed in `ExcClass`.  Python dict mutation of the caller's
command mapping is modelled by returning the mutated mapping (`sent`)
alongside the updated client state.
-/

set_option autoImplicit false

namespace SupervisorWS

/-- JSON-like values exchanged over the websocket. -/
inductive JValue where
  | null
  | bool (b : Bool)
  | num (n : Int)
  | str (s : String)
  | arr (elems : List JValue)
  | obj (fields : List (String × JValue))

/-- A JSON object, as delivered by `receive_json` / passed to `send_json`:
an ordered key-value mapping (Python dict). -/
abbrev JObject := List (String × JValue)

/-- Python truthiness of a JSON value, as used by `if response["success"]:`. -/
def JValue.truthy : JValue → Bool
  | .null => false
  | .bool b => b
  | .num n => n != 0
  | .str s => s != ""
  | .arr elems => !elems.isEmpty
  | .obj fields => !fields.isEmpty

/-- Python `d[key]` read access: the value at `key`, or `none` when the key is
absent (in which case the source raises `KeyError`). -/
def lookupKey : JObject → String → Option JValue
  | [], _ => none
  | (k, v) :: rest, key => if k = key then some v else lookupKey rest key

/-- Python `d[key] = value` assignment: replace the value at `key` in place if
present, otherwise append the new entry. -/
def setKey : JObject → String → JValue → JObject
  | [], key, value => [(key, value)]
  | (k, v) :: rest, key, value =>
      if k = key then (key, value) :: rest else (k, v) :: setKey rest key value

/-- The exception classes raised in `ws.py`.  `keyError` models Python's
`KeyError` from an unguarded dict access. -/
inductive ExcClass where
  | keyError
  | homeAssistantAPIError
  | homeAssistantWSError
deriving DecidableEq

/-- An exception: its class together with its constructor argument
(`HomeAssistantWSError(response)` carries the response; the bare
`raise HomeAssistantWSError from err` carries nothing — the `from err` cause
chain is not part of the observable class and is not modelled). -/
structure Exc where
  cls : ExcClass
  arg : Option JValue

/-- Modelled from the spec: `supervisor/exceptions.py` is not part of the
given sources; per spec section 7 the manager-level `UnifiedWSError`
(`HomeAssistantWSError`) wraps any lower-level protocol error raised through
the manager's `send_command`, so `HomeAssistantWSError` is treated as a
subclass of `HomeAssistantAPIError` and is caught by
`except HomeAssistantAPIError`.  `KeyError` is unrelated to that hierarchy. -/
def ExcClass.isHomeAssistantAPIError : ExcClass → Bool
  | .keyError => false
  | .homeAssistantAPIError => true
  | .homeAssistantWSError => true

/-- `WSClient` state: the negotiated version (`self.ha_version`) and the
correlation counter (`self.msg_id`).  The `aiohttp` connection handle is an
external collaborator and carries no state observable by this layer. -/
structure WSClient where
  ha_version : JValue
  msg_id : Nat

/-- `WSClient.__init__`: records the version and starts the counter at 0. -/
def WSClient.init (ha_version : JValue) : WSClient :=
  ⟨ha_version, 0⟩

/-- Result of one `WSClient.send_command` call: the client state afterwards,
the transmitted message (which is also the caller's mapping afterwards, since
the dict is mutated in place), and the returned value or raised exception. -/
structure SendResult where
  client : WSClient
  sent : JObject
  outcome : Except Exc JValue

/-- `WSClient.send_command`: increment `msg_id`, inject it as `msg["id"]`,
send, then read the single response: return `response["result"]` when
`response["success"]` is truthy, raise `HomeAssistantWSError(response)` when
it is falsy, and raise `KeyError` when a read key is absent. -/
def WSClient.send_command (c : WSClient) (msg response : JObject) : SendResult :=
  let newId := c.msg_id + 1
  let sent := setKey msg "id" (.num (newId : Int))
  ⟨⟨c.ha_version, newId⟩, sent,
    match lookupKey response "success" with
    | none => .error ⟨.keyError, some (.str "success")⟩
    | some s =>
      if s.truthy then
        match lookupKey response "result" with
        | none => .error ⟨.keyError, some (.str "result")⟩
        | some r => .ok r
      else
        .error ⟨.homeAssistantWSError, some (.obj response)⟩⟩

/-- Python `auth_ok_msg["type"] == "auth_ok"`: equality with a string literal
holds exactly for the string value with identical content. -/
def isAuthOk : JValue → Bool
  | .str s => s = "auth_ok"
  | _ => false

/-- The environment of one `connect_with_auth` call: whether
`session.ws_connect` succeeds (it raises `ClientConnectorError` otherwise),
and the two messages the peer delivers during the handshake. -/
structure ConnectEnv where
  connectOk : Bool
  hello_msg : JObject
  auth_ok_msg : JObject

/-- `WSClient.connect_with_auth`: open the transport (connector failure is
re-raised as `HomeAssistantWSError("Can't connect")`), receive the hello
message, send the auth message, receive the auth result; raise
`HomeAssistantAPIError("AUTH NOT OK")` unless its `type` is `"auth_ok"`,
then construct the client from the hello message's `ha_version`.  The
`type` read happens before the `ha_version` read, as in the source. -/
def WSClient.connect_with_auth (env : ConnectEnv) : Except Exc WSClient :=
  if !env.connectOk then
    .error ⟨.homeAssistantWSError, some (.str "Can\x27t connect")⟩
  else
    match lookupKey env.auth_ok_msg "type" with
    | none => .error ⟨.keyError, some (.str "type")⟩
    | some t =>
      if !isAuthOk t then
        .error ⟨.homeAssistantAPIError, some (.str "AUTH NOT OK")⟩
      else
        match lookupKey env.hello_msg "ha_version" with
        | none => .error ⟨.keyError, some (.str "ha_version")⟩
        | some v => .ok (WSClient.init v)

/-- `HomeAssistantWS` state: the zero-or-one cached client slot. -/
structure HomeAssistantWS where
  client : Option WSClient

/-- Result of one `HomeAssistantWS.send_command` call: the manager state
afterwards and the returned value or raised exception. -/
structure ManagerResult where
  manager : HomeAssistantWS
  outcome : Except Exc JValue

/-- The `try`/`except` block of `HomeAssistantWS.send_command`: delegate to
the cached client; an exception matching `except HomeAssistantAPIError` is
re-raised as a bare `HomeAssistantWSError` (`raise HomeAssistantWSError from
err`).  The slot keeps the (mutated) client either way: it was assigned
before the `try`. -/
def HomeAssistantWS.delegate (c : WSClient) (msg response : JObject) :
    ManagerResult :=
  let r := c.send_command msg response
  ⟨⟨some r.client⟩,
    match r.outcome with
    | .ok v => .ok v
    | .error e =>
      if e.cls.isHomeAssistantAPIError then
        .error ⟨.homeAssistantWSError, none⟩
      else
        .error e⟩

/-- `HomeAssistantWS.send_command`: if no client is cached, build one via
`connect_with_auth` (this happens before — outside — the `try` block, so an
exception here propagates untranslated and leaves the slot unassigned), then
run the guarded delegation. -/
def HomeAssistantWS.send_command (m : HomeAssistantWS) (env : ConnectEnv)
    (msg response : JObject) : ManagerResult :=
  match m.client with
  | some c => HomeAssistantWS.delegate c msg response
  | none =>
    match WSClient.connect_with_auth env with
    | .error e => ⟨⟨none⟩, .error e⟩
    | .ok c => HomeAssistantWS.delegate c msg response

/-- A sequence of command exchanges on one client: each element pairs the
caller's command mapping with the response the peer delivers.  Returns the
final client state and the transmitted messages in send order. -/
def sendAll (c : WSClient) : List (JObject × JObject) → WSClient × List JObject
  | [] => (c, [])
  | (msg, response) :: rest =>
    let r := c.send_command msg response
    let tail := sendAll r.client rest
    (tail.1, r.sent :: tail.2)

/-! Lemmas about the dict operations. -/

theorem lookupKey_setKey_self (m : JObject) (key : String) (value : JValue) :
    lookupKey (setKey m key value) key = some value := by
  induction m with
  | nil => simp [setKey, lookupKey]
  | cons kv rest ih =>
    obtain ⟨k, v⟩ := kv
    by_cases h : k = key
    · simp [setKey, h, lookupKey]
    · simp [setKey, h, lookupKey, ih]

theorem lookupKey_setKey_ne (m : JObject) (key other : String) (value : JValue)
    (h : other ≠ key) :
    lookupKey (setKey m key value) other = lookupKey m other := by
  induction m with
  | nil => simp [setKey, lookupKey, Ne.symm h]
  | cons kv rest ih =>
    obtain ⟨k, v⟩ := kv
    by_cases hk : k = key
    · subst hk
      simp [setKey, lookupKey, Ne.symm h]
    · simp [setKey, hk, lookupKey, ih]

/-- The `id` value transmitted for the `n`-th increment of the counter. -/
theorem send_command_sent_id (c : WSClient) (msg response : JObject) :
    lookupKey (c.send_command msg response).sent "id"
      = some (.num ((c.msg_id + 1 : Nat) : Int)) := by
  simp [WSClient.send_command, lookupKey_setKey_self]

/-- The client state after one send: same version, counter incremented. -/
theorem send_command_client (c : WSClient) (msg response : JObject) :
    (c.send_command msg response).client = ⟨c.ha_version, c.msg_id + 1⟩ := rfl

/-! Claim theorems. -/

/-- Claim C8: `WSClient.send_command` sets the `id` key of the caller's
mapping, overwriting any pre-existing value with the fresh counter value, and
leaves every other key of the mapping unchanged in the transmitted message:
`id` is the only field the protocol layer controls. -/
theorem claim_C8_id_only_controlled_field (c : WSClient) (msg response : JObject) :
    lookupKey (c.send_command msg response).sent "id"
      = some (.num ((c.msg_id + 1 : Nat) : Int))
    ∧ ∀ k : String, k ≠ "id" →
        lookupKey (c.send_command msg response).sent k = lookupKey msg k := by
  refine ⟨send_command_sent_id c msg response, fun k hk => ?_⟩
  simp [WSClient.send_command, lookupKey_setKey_ne _ _ _ _ hk]

/-- Witness for C8 at a mapping that already carries an `id`. -/
theorem claim_C8_id_only_controlled_field_witness :
    lookupKey ((WSClient.init .null).send_command
        [("id", .num 99), ("type", .str "ping")] []).sent "id" = some (.num 1)
    ∧ lookupKey ((WSClient.init .null).send_command
        [("id", .num 99), ("type", .str "ping")] []).sent "type"
      = lookupKey [("id", .num 99), ("type", .str "ping")] "type" := by
  have h := claim_C8_id_only_controlled_field (WSClient.init .null)
    [("id", .num 99), ("type", .str "ping")] []
  exact ⟨h.1, h.2 "type" (by decide)⟩

/-- Claim C9: when the received response has no `success` key, the success
check raises `KeyError`: `send_command` neither returns a result nor raises
the protocol error. -/
theorem claim_C9_missing_success_is_keyerror (c : WSClient) (msg response : JObject)
    (h : lookupKey response "success" = none) :
    (c.send_command msg response).outcome = .error ⟨.keyError, some (.str "success")⟩
    ∧ (∀ v : JValue, (c.send_command msg response).outcome ≠ .ok v)
    ∧ ∀ a : Option JValue,
        (c.send_command msg response).outcome ≠ .error ⟨.homeAssistantWSError, a⟩ := by
  simp [WSClient.send_command, h]

/-- Witness for C9: a response carrying only a `result`. -/
theorem claim_C9_missing_success_is_keyerror_witness :
    ((WSClient.init .null).send_command [] [("result", .null)]).outcome
      = .error ⟨.keyError, some (.str "success")⟩ :=
  (claim_C9_missing_success_is_keyerror (WSClient.init .null) [] [("result", .null)]
    rfl).1

/-- Claim C3: with a boolean success indicator present, `send_command` returns
the `result` payload unchanged when the indicator is true, raises
`HomeAssistantWSError` carrying the full response body when it is false, and
raises that protocol error if and only if the indicator is false. -/
theorem claim_C3_success_indicator_semantics (c : WSClient) (msg response : JObject)
    (b : Bool) (h : lookupKey response "success" = some (.bool b)) :
    (∀ r : JValue, b = true → lookupKey response "result" = some r →
        (c.send_command msg response).outcome = .ok r)
    ∧ (b = false →
        (c.send_command msg response).outcome
          = .error ⟨.homeAssistantWSError, some (.obj response)⟩)
    ∧ ((c.send_command msg response).outcome
          = .error ⟨.homeAssistantWSError, some (.obj response)⟩ ↔ b = false) := by
  cases b with
  | false => simp [WSClient.send_command, h, JValue.truthy]
  | true =>
    refine ⟨fun r _ hr => by simp [WSClient.send_command, h, JValue.truthy, hr], by simp, ?_⟩
    simp only [WSClient.send_command, h, JValue.truthy]
    cases hr : lookupKey response "result" <;> simp [hr]

/-- Witness for C3, success and failure sides. -/
theorem claim_C3_success_indicator_semantics_witness :
    ((WSClient.init .null).send_command []
        [("success", .bool true), ("result", .num 7)]).outcome = .ok (.num 7)
    ∧ ((WSClient.init .null).send_command []
        [("success", .bool false), ("error", .str "bad_request")]).outcome
      = .error ⟨.homeAssistantWSError,
          some (.obj [("success", .bool false), ("error", .str "bad_request")])⟩ :=
  ⟨(claim_C3_success_indicator_semantics (WSClient.init .null) []
      [("success", .bool true), ("result", .num 7)] true rfl).1 (.num 7) rfl rfl,
   (claim_C3_success_indicator_semantics (WSClient.init .null) []
      [("success", .bool false), ("error", .str "bad_request")] false rfl).2.1 rfl⟩

/-- Claim C10: when the response indicates failure, the protocol error is
raised but nothing is rolled back: the counter keeps its incremented value,
the injected `id` stays in the caller's mapping, and the next command on the
same client is assigned the next integer id. -/
theorem claim_C10_no_rollback_on_failure (c : WSClient)
    (msg response msg2 response2 : JObject) (s : JValue)
    (h1 : lookupKey response "success" = some s) (h2 : s.truthy = false) :
    (c.send_command msg response).outcome
      = .error ⟨.homeAssistantWSError, some (.obj response)⟩
    ∧ (c.send_command msg response).client.msg_id = c.msg_id + 1
    ∧ lookupKey (c.send_command msg response).sent "id"
        = some (.num ((c.msg_id + 1 : Nat) : Int))
    ∧ lookupKey ((c.send_command msg response).client.send_command
        msg2 response2).sent "id" = some (.num ((c.msg_id + 2 : Nat) : Int)) := by
  refine ⟨by simp [WSClient.send_command, h1, h2], by simp [WSClient.send_command],
    send_command_sent_id c msg response, ?_⟩
  have h := send_command_sent_id (c.send_command msg response).client msg2 response2
  simpa [WSClient.send_command] using h

/-- Witness for C10: a failing command followed by a second command. -/
theorem claim_C10_no_rollback_on_failure_witness :
    ((WSClient.init .null).send_command [] [("success", .bool false)]).outcome
      = .error ⟨.homeAssistantWSError, some (.obj [("success", .bool false)])⟩
    ∧ ((WSClient.init .null).send_command [] [("success", .bool false)]).client.msg_id = 1
    ∧ lookupKey ((WSClient.init .null).send_command []
        [("success", .bool false)]).sent "id" = some (.num 1)
    ∧ lookupKey (((WSClient.init .null).send_command []
        [("success", .bool false)]).client.send_command [] []).sent "id"
      = some (.num 2) :=
  claim_C10_no_rollback_on_failure (WSClient.init .null) [] [("success", .bool false)]
    [] [] (.bool false) rfl rfl

/-- Generalised id-sequence lemma: starting from any counter value, a run of
`sendAll` transmits ids `msg_id+1, msg_id+2, …` and leaves the counter at
`msg_id + N`. -/
theorem sendAll_ids (cmds : List (JObject × JObject)) (c : WSClient) :
    (sendAll c cmds).2.map (fun m => lookupKey m "id")
      = (List.range' (c.msg_id + 1) cmds.length).map
          (fun i => some (.num (i : Int)))
    ∧ (sendAll c cmds).1.msg_id = c.msg_id + cmds.length := by
  induction cmds generalizing c with
  | nil => simp [sendAll]
  | cons p rest ih =>
    obtain ⟨msg, response⟩ := p
    obtain ⟨ih1, ih2⟩ := ih (c.send_command msg response).client
    constructor
    · rw [List.length_cons, List.range'_succ]
      simp only [sendAll, List.map_cons, List.cons.injEq]
      exact ⟨send_command_sent_id c msg response,
        by simpa [send_command_client] using ih1⟩
    · simp only [sendAll, List.length_cons]
      rw [ih2, send_command_client]
      show c.msg_id + 1 + rest.length = c.msg_id + (rest.length + 1)
      omega

/-- Claim C2: on a freshly constructed client the counter starts at 0; a run
of `N` commands transmits ids exactly `1..N` in send order (no gaps, no
repeats), the counter ends at `N`, and every single send increments the
counter by exactly one, so it strictly increases across the client's
lifetime. -/
theorem claim_C2_ids_are_one_to_n (v : JValue) (cmds : List (JObject × JObject)) :
    (WSClient.init v).msg_id = 0
    ∧ (sendAll (WSClient.init v) cmds).2.map (fun m => lookupKey m "id")
        = (List.range' 1 cmds.length).map (fun i => some (.num (i : Int)))
    ∧ (sendAll (WSClient.init v) cmds).1.msg_id = cmds.length
    ∧ ∀ (c : WSClient) (msg response : JObject),
        (c.send_command msg response).client.msg_id = c.msg_id + 1 := by
  obtain ⟨h1, h2⟩ := sendAll_ids cmds (WSClient.init v)
  exact ⟨rfl, by simpa [WSClient.init] using h1, by simpa [WSClient.init] using h2,
    fun c msg response => by simp [WSClient.send_command]⟩

/-- Claim C4: a successful handshake — transport open, auth result
`"auth_ok"` — yields a client whose recorded version is the hello message's
`ha_version` field verbatim and whose counter is 0, so its first command is
assigned id 1. -/
theorem claim_C4_successful_handshake (env : ConnectEnv) (v : JValue)
    (h1 : env.connectOk = true)
    (h2 : lookupKey env.auth_ok_msg "type" = some (.str "auth_ok"))
    (h3 : lookupKey env.hello_msg "ha_version" = some v) :
    WSClient.connect_with_auth env = .ok (WSClient.init v)
    ∧ (WSClient.init v).ha_version = v
    ∧ (WSClient.init v).msg_id = 0
    ∧ ∀ msg response : JObject,
        lookupKey ((WSClient.init v).send_command msg response).sent "id"
          = some (.num 1) := by
  refine ⟨?_, rfl, rfl, fun msg response => ?_⟩
  · simp [WSClient.connect_with_auth, h1, h2, h3, isAuthOk]
  · simpa using send_command_sent_id (WSClient.init v) msg response

/-- Witness for C4 at a concrete handshake transcript. -/
theorem claim_C4_successful_handshake_witness :
    WSClient.connect_with_auth
        ⟨true, [("ha_version", .str "2021.5.0")], [("type", .str "auth_ok")]⟩
      = .ok (WSClient.init (.str "2021.5.0"))
    ∧ lookupKey ((WSClient.init (.str "2021.5.0")).send_command
        [("type", .str "ping")] []).sent "id" = some (.num 1) := by
  have h := claim_C4_successful_handshake
    ⟨true, [("ha_version", .str "2021.5.0")], [("type", .str "auth_ok")]⟩
    (.str "2021.5.0") rfl rfl rfl
  exact ⟨h.1, h.2.2.2 [("type", .str "ping")] []⟩

/-- A non-`"auth_ok"` auth result never passes the `== "auth_ok"` test. -/
theorem isAuthOk_eq_false (t : JValue) (h : t ≠ .str "auth_ok") :
    isAuthOk t = false := by
  cases t with
  | str s =>
    simp only [isAuthOk, decide_eq_false_iff_not]
    intro hs
    exact h (by rw [hs])
  | null => rfl
  | bool b => rfl
  | num n => rfl
  | arr elems => rfl
  | obj fields => rfl

/-- Claim C5: when the auth-result message's `type` is anything other than
the literal `"auth_ok"`, `connect_with_auth` raises
`HomeAssistantAPIError("AUTH NOT OK")`; no client is returned, and a
manager call hitting this handshake caches nothing. -/
theorem claim_C5_auth_failure (env : ConnectEnv) (t : JValue)
    (h1 : env.connectOk = true)
    (h2 : lookupKey env.auth_ok_msg "type" = some t)
    (h3 : t ≠ .str "auth_ok") :
    WSClient.connect_with_auth env
      = .error ⟨.homeAssistantAPIError, some (.str "AUTH NOT OK")⟩
    ∧ ∀ msg response : JObject,
        ((HomeAssistantWS.mk none).send_command env msg response).manager.client
          = none := by
  have hauth : WSClient.connect_with_auth env
      = .error ⟨.homeAssistantAPIError, some (.str "AUTH NOT OK")⟩ := by
    simp [WSClient.connect_with_auth, h1, h2, isAuthOk_eq_false t h3]
  exact ⟨hauth, fun msg response => by simp [HomeAssistantWS.send_command, hauth]⟩

/-- Witness for C5 at a concrete rejected handshake. -/
theorem claim_C5_auth_failure_witness :
    WSClient.connect_with_auth
        ⟨true, [("ha_version", .str "2021.5.0")], [("type", .str "auth_invalid")]⟩
      = .error ⟨.homeAssistantAPIError, some (.str "AUTH NOT OK")⟩
    ∧ ((HomeAssistantWS.mk none).send_command
        ⟨true, [("ha_version", .str "2021.5.0")], [("type", .str "auth_invalid")]⟩
        [] []).manager.client = none := by
  have h := claim_C5_auth_failure
    ⟨true, [("ha_version", .str "2021.5.0")], [("type", .str "auth_invalid")]⟩
    (.str "auth_invalid") rfl rfl (by simp)
  exact ⟨h.1, h.2 [] []⟩

/-- Claim C6: a connector failure while opening the transport surfaces as the
`"Can't connect"` `HomeAssistantWSError`, and the manager's cached-client
slot is left empty: a failed handshake is never cached. -/
theorem claim_C6_connector_failure (env : ConnectEnv) (msg response : JObject)
    (h : env.connectOk = false) :
    WSClient.connect_with_auth env
      = .error ⟨.homeAssistantWSError, some (.str "Can\x27t connect")⟩
    ∧ ((HomeAssistantWS.mk none).send_command env msg response).outcome
        = .error ⟨.homeAssistantWSError, some (.str "Can\x27t connect")⟩
    ∧ ((HomeAssistantWS.mk none).send_command env msg response).manager.client
        = none := by
  have hconn : WSClient.connect_with_auth env
      = .error ⟨.homeAssistantWSError, some (.str "Can\x27t connect")⟩ := by
    simp [WSClient.connect_with_auth, h]
  exact ⟨hconn, by simp [HomeAssistantWS.send_command, hconn],
    by simp [HomeAssistantWS.send_command, hconn]⟩

/-- Witness for C6 at a concrete refused connection. -/
theorem claim_C6_connector_failure_witness :
    WSClient.connect_with_auth ⟨false, [], []⟩
      = .error ⟨.homeAssistantWSError, some (.str "Can\x27t connect")⟩
    ∧ ((HomeAssistantWS.mk none).send_command ⟨false, [], []⟩ [] []).manager.client
      = none := by
  have h := claim_C6_connector_failure ⟨false, [], []⟩ [] [] rfl
  exact ⟨h.1, h.2.2⟩

/-- Claim C7: the manager caches at most one client (the slot is optional by
construction): a call on an empty slot with a successful handshake caches the
new client, and a call on a non-empty slot reuses the cached client — the
slot afterwards holds the same client with only its counter advanced, and the
whole call's behaviour is independent of the handshake environment, i.e. no
new handshake is performed. -/
theorem claim_C7_single_cached_client (m : HomeAssistantWS) (env : ConnectEnv)
    (msg response : JObject) :
    (∀ c : WSClient, m.client = none → WSClient.connect_with_auth env = .ok c →
        (m.send_command env msg response).manager.client
          = some ⟨c.ha_version, c.msg_id + 1⟩)
    ∧ ∀ c : WSClient, m.client = some c →
        (m.send_command env msg response).manager.client
          = some ⟨c.ha_version, c.msg_id + 1⟩
        ∧ ∀ env2 : ConnectEnv,
            m.send_command env msg response = m.send_command env2 msg response := by
  constructor
  · intro c hnone hok
    simp [HomeAssistantWS.send_command, hnone, hok, HomeAssistantWS.delegate,
      send_command_client]
  · intro c hsome
    refine ⟨?_, fun env2 => ?_⟩
    · simp [HomeAssistantWS.send_command, hsome, HomeAssistantWS.delegate,
        send_command_client]
    · simp [HomeAssistantWS.send_command, hsome]

/-- Witness for C7: a first call caches the handshake client; a second call
on the resulting manager reuses it, with the environment irrelevant. -/
theorem claim_C7_single_cached_client_witness :
    ((HomeAssistantWS.mk none).send_command
        ⟨true, [("ha_version", .str "2021.5.0")], [("type", .str "auth_ok")]⟩
        [] [("success", .bool true), ("result", .null)]).manager.client
      = some ⟨.str "2021.5.0", 1⟩
    ∧ ((HomeAssistantWS.mk (some ⟨.str "2021.5.0", 1⟩)).send_command
        ⟨true, [("ha_version", .str "2021.5.0")], [("type", .str "auth_ok")]⟩
        [] [("success", .bool true), ("result", .null)]).manager.client
      = some ⟨.str "2021.5.0", 2⟩
    ∧ (HomeAssistantWS.mk (some ⟨.str "2021.5.0", 1⟩)).send_command
        ⟨true, [("ha_version", .str "2021.5.0")], [("type", .str "auth_ok")]⟩
        [] [("success", .bool true), ("result", .null)]
      = (HomeAssistantWS.mk (some ⟨.str "2021.5.0", 1⟩)).send_command
        ⟨false, [], []⟩ [] [("success", .bool true), ("result", .null)] := by
  have h1 := (claim_C7_single_cached_client (HomeAssistantWS.mk none)
    ⟨true, [("ha_version", .str "2021.5.0")], [("type", .str "auth_ok")]⟩
    [] [("success", .bool true), ("result", .null)]).1
    (WSClient.init (.str "2021.5.0")) rfl rfl
  have h2 := (claim_C7_single_cached_client
    (HomeAssistantWS.mk (some ⟨.str "2021.5.0", 1⟩))
    ⟨true, [("ha_version", .str "2021.5.0")], [("type", .str "auth_ok")]⟩
    [] [("success", .bool true), ("result", .null)]).2 ⟨.str "2021.5.0", 1⟩ rfl
  exact ⟨h1, h2.1, h2.2 ⟨false, [], []⟩⟩

/-- Claim C1 fails as stated: a handshake whose auth result is rejected
happens before — outside — the manager's `try`/`except`, so the external
caller of `HomeAssistantWS.send_command` observes the lower-level
`HomeAssistantAPIError`, not the unified `HomeAssistantWSError` kind. -/
theorem claim_C1_counterexample :
    ((HomeAssistantWS.mk none).send_command
        ⟨true, [("ha_version", .str "2021.5.0")], [("type", .str "auth_invalid")]⟩
        [("type", .str "ping")] [("success", .bool true), ("result", .null)]).outcome
      = .error ⟨.homeAssistantAPIError, some (.str "AUTH NOT OK")⟩
    ∧ ExcClass.homeAssistantAPIError ≠ ExcClass.homeAssistantWSError :=
  ⟨rfl, by decide⟩

/-- Claim C1, amended: an error arising in the delegated command exchange (on
a response that carries the success indicator, and a result when it is
truthy) is observed through the manager only as `HomeAssistantWSError`, and a
connector failure during establishment likewise surfaces as
`HomeAssistantWSError`; only an auth-handshake failure escapes as the
lower-level kind (see the counterexample). -/
theorem claim_C1_amended_unified_error_kind (m : HomeAssistantWS)
    (env : ConnectEnv) (msg response : JObject) :
    (∀ (c : WSClient) (s : JValue), m.client = some c →
        lookupKey response "success" = some s →
        (s.truthy = true → (lookupKey response "result").isSome = true) →
        (∃ v, (m.send_command env msg response).outcome = .ok v)
        ∨ ∃ a, (m.send_command env msg response).outcome
            = .error ⟨.homeAssistantWSError, a⟩)
    ∧ (m.client = none → env.connectOk = false →
        (m.send_command env msg response).outcome
          = .error ⟨.homeAssistantWSError, some (.str "Can\x27t connect")⟩) := by
  constructor
  · intro c s hsome hsucc hres
    simp only [HomeAssistantWS.send_command, hsome, HomeAssistantWS.delegate,
      WSClient.send_command, hsucc]
    cases hst : s.truthy with
    | false => simp [ExcClass.isHomeAssistantAPIError]
    | true =>
      obtain ⟨r, hr⟩ := Option.isSome_iff_exists.mp (hres hst)
      simp [hr]
  · intro hnone hfail
    simp [HomeAssistantWS.send_command, hnone, WSClient.connect_with_auth, hfail]

/-- Witness for the amended C1: a failing command through a cached client
surfaces as a bare `HomeAssistantWSError`; a refused connection surfaces as
the `"Can't connect"` `HomeAssistantWSError`. -/
theorem claim_C1_amended_unified_error_kind_witness :
    ((∃ v, ((HomeAssistantWS.mk (some ⟨.null, 0⟩)).send_command ⟨false, [], []⟩
        [] [("success", .bool false)]).outcome = .ok v)
      ∨ ∃ a, ((HomeAssistantWS.mk (some ⟨.null, 0⟩)).send_command ⟨false, [], []⟩
        [] [("success", .bool false)]).outcome
          = .error ⟨.homeAssistantWSError, a⟩)
    ∧ ((HomeAssistantWS.mk none).send_command ⟨false, [], []⟩
        [] [("success", .bool false)]).outcome
      = .error ⟨.homeAssistantWSError, some (.str "Can\x27t connect")⟩ := by
  have h := claim_C1_amended_unified_error_kind (HomeAssistantWS.mk (some ⟨.null, 0⟩))
    ⟨false, [], []⟩ [] [("success", .bool false)]
  have h2 := claim_C1_amended_unified_error_kind (HomeAssistantWS.mk none)
    ⟨false, [], []⟩ [] [("success", .bool false)]
  exact ⟨h.1 ⟨.null, 0⟩ (.bool false) rfl rfl (by intro hc; cases hc),
    h2.2 rfl rfl⟩

end SupervisorWS
